import Mathlib

/-!
Shallow embedding of two alsa-lib modules: the UMP (Universal MIDI Packet)
rawmidi wrapper (rawmidi/ump.c) and the PCM file-mirroring plugin (pcm_file.c).

External layers (the generic rawmidi handle, the slave PCM handle, and the
libc calls write/lseek/calloc) are modelled by explicit result parameters;
the observable effects each claim talks about (handle closes, frees, bytes
written to the mirror descriptor, file position) are recorded in outcome
structures.
-/

namespace Alsa

/-- errno value EINVAL (invalid argument). -/
def EINVAL : Int := 22

/-- errno value ENOMEM (out of memory). -/
def ENOMEM : Int := 12

/-- The UMP capability bit of the rawmidi info flags
(SNDRV_RAWMIDI_INFO_UMP = 0x8 in the kernel uapi). -/
def SNDRV_RAWMIDI_INFO_UMP : Nat := 8

/-- The UMP wrapper handle: a direction flag plus the cached info flags.
The wrapped rawmidi handle itself is external and is represented by the
result parameters of the operations below. -/
structure snd_ump_t where
  is_input : Bool
  flags : Nat
deriving DecidableEq

/-- get_rawmidi_flags: runs snd_rawmidi_info (its result is the `infoRes`
parameter: an error code or the reported flags), rejects a device whose
flags lack the UMP bit with -EINVAL, and otherwise caches the flags in the
handle. -/
def get_rawmidi_flags (ump : snd_ump_t) (infoRes : Except Int Nat) :
    Except Int snd_ump_t :=
  match infoRes with
  | .error e => .error e
  | .ok fl =>
    if fl &&& SNDRV_RAWMIDI_INFO_UMP = 0 then .error (-EINVAL)
    else .ok { ump with flags := fl }

instance {α β : Type} [DecidableEq α] [DecidableEq β] :
    DecidableEq (Except α β) := fun x y =>
  match x, y with
  | .error a, .error b => decidable_of_iff (a = b) (by simp)
  | .ok a, .ok b => decidable_of_iff (a = b) (by simp)
  | .error _, .ok _ => .isFalse (by simp)
  | .ok _, .error _ => .isFalse (by simp)

/-- The external outcomes snd_ump_open can observe: whether each calloc
succeeds, the result of snd_rawmidi_open, and the result of
snd_rawmidi_info for each direction. -/
structure OpenEnv where
  callocInputOk : Bool
  callocOutputOk : Bool
  rawmidiOpenRes : Except Int Unit
  infoInputRes : Except Int Nat
  infoOutputRes : Except Int Nat
deriving DecidableEq

/-- Everything observable about one snd_ump_open call: the returned status,
the handles stored through inputp/outputp, and the resource bookkeeping
(which wrappers were allocated, which rawmidi handles were acquired by
snd_rawmidi_open, and how many times each was closed or freed). -/
structure OpenOutcome where
  ret : Int
  inputp : Option snd_ump_t
  outputp : Option snd_ump_t
  inputAllocated : Bool
  outputAllocated : Bool
  inputRawmidiAcquired : Bool
  outputRawmidiAcquired : Bool
  inputRawmidiCloses : Nat
  outputRawmidiCloses : Nat
  inputFrees : Nat
  outputFrees : Nat
deriving DecidableEq

/-- The error unwind label of snd_ump_open: for each direction, close the
acquired rawmidi handle of an allocated wrapper (the rawmidi field is
non-NULL only after snd_rawmidi_open succeeded) and free the allocated
wrapper struct. -/
def snd_ump_open_error (err : Int) (inAlloc outAlloc inRaw outRaw : Bool) :
    OpenOutcome :=
  { ret := err
    inputp := none
    outputp := none
    inputAllocated := inAlloc
    outputAllocated := outAlloc
    inputRawmidiAcquired := inRaw
    outputRawmidiAcquired := outRaw
    inputRawmidiCloses := if inAlloc && inRaw then 1 else 0
    outputRawmidiCloses := if outAlloc && outRaw then 1 else 0
    inputFrees := if inAlloc then 1 else 0
    outputFrees := if outAlloc then 1 else 0 }

/-- snd_ump_open: `wantInput` / `wantOutput` say whether inputp / outputp
are non-NULL.  Mirrors the source line by line: the -EINVAL guard when
neither direction is requested, the two callocs, the single
snd_rawmidi_open for both directions, and one get_rawmidi_flags per
requested direction, with every failure routed through the error label. -/
def snd_ump_open (wantInput wantOutput : Bool) (env : OpenEnv) : OpenOutcome :=
  if !wantInput && !wantOutput then
    { ret := -EINVAL
      inputp := none
      outputp := none
      inputAllocated := false
      outputAllocated := false
      inputRawmidiAcquired := false
      outputRawmidiAcquired := false
      inputRawmidiCloses := 0
      outputRawmidiCloses := 0
      inputFrees := 0
      outputFrees := 0 }
  else if wantInput && !env.callocInputOk then
    snd_ump_open_error (-ENOMEM) false false false false
  else if wantOutput && !env.callocOutputOk then
    snd_ump_open_error (-ENOMEM) wantInput false false false
  else
    match env.rawmidiOpenRes with
    | .error e => snd_ump_open_error e wantInput wantOutput false false
    | .ok _ =>
      match (if wantInput then
          (get_rawmidi_flags { is_input := true, flags := 0 } env.infoInputRes).map some
        else .ok none : Except Int (Option snd_ump_t)) with
      | .error e => snd_ump_open_error e wantInput wantOutput wantInput wantOutput
      | .ok inp =>
        match (if wantOutput then
            (get_rawmidi_flags { is_input := false, flags := 0 } env.infoOutputRes).map some
          else .ok none : Except Int (Option snd_ump_t)) with
        | .error e => snd_ump_open_error e wantInput wantOutput wantInput wantOutput
        | .ok outp =>
          { ret := 0
            inputp := inp
            outputp := outp
            inputAllocated := wantInput
            outputAllocated := wantOutput
            inputRawmidiAcquired := wantInput
            outputRawmidiAcquired := wantOutput
            inputRawmidiCloses := 0
            outputRawmidiCloses := 0
            inputFrees := 0
            outputFrees := 0 }

/-- Observable outcome of snd_ump_close. -/
structure UmpCloseOutcome where
  ret : Int
  rawmidiCloses : Nat
  frees : Nat
deriving DecidableEq

/-- snd_ump_close: closes the wrapped rawmidi handle (whose close result is
the `rawmidiCloseRes` parameter), frees the wrapper, and returns the close
result. -/
def snd_ump_close (rawmidiCloseRes : Int) : UmpCloseOutcome :=
  { ret := rawmidiCloseRes, rawmidiCloses := 1, frees := 1 }

/-- snd_ump_write: -EINVAL on an input handle, otherwise the wrapped
snd_rawmidi_write result (`rawWriteRes`).  The Bool records whether the
wrapped write was invoked. -/
def snd_ump_write (ump : snd_ump_t) (rawWriteRes : Int) : Int × Bool :=
  if ump.is_input then (-EINVAL, false)
  else (rawWriteRes, true)

/-- snd_ump_read: -EINVAL on a non-input handle, otherwise the wrapped
snd_rawmidi_read result.  The Bool records whether the wrapped read was
invoked. -/
def snd_ump_read (ump : snd_ump_t) (rawReadRes : Int) : Int × Bool :=
  if !ump.is_input then (-EINVAL, false)
  else (rawReadRes, true)

/-- snd_ump_tread: -EINVAL on a non-input handle, otherwise the wrapped
snd_rawmidi_tread result. -/
def snd_ump_tread (ump : snd_ump_t) (rawTreadRes : Int) : Int × Bool :=
  if !ump.is_input then (-EINVAL, false)
  else (rawTreadRes, true)

/-- Well-formedness of the external world: failing calls report a negative
code, as the rawmidi layer does. -/
def OpenEnv.Wf (env : OpenEnv) : Prop :=
  (∀ e, env.rawmidiOpenRes = Except.error e → e < 0) ∧
  (∀ e, env.infoInputRes = Except.error e → e < 0) ∧
  (∀ e, env.infoOutputRes = Except.error e → e < 0)

/-- Resource bookkeeping of one snd_ump_open outcome after an unwind: each
acquired rawmidi handle of an allocated wrapper is closed exactly once and
no other handle is closed; each allocated wrapper is freed exactly once
and nothing else is freed. -/
def UnwoundExactlyOnce (o : OpenOutcome) : Prop :=
  o.inputRawmidiCloses =
    (if o.inputAllocated && o.inputRawmidiAcquired then 1 else 0) ∧
  o.outputRawmidiCloses =
    (if o.outputAllocated && o.outputRawmidiAcquired then 1 else 0) ∧
  o.inputFrees = (if o.inputAllocated then 1 else 0) ∧
  o.outputFrees = (if o.outputAllocated then 1 else 0)

/-! ## PCM file plugin -/

/-- The snd_pcm_file_t private data: the slave-ownership flag, the optional
file name (present exactly when the wrapper opened the file itself) and the
mirror file descriptor. -/
structure snd_pcm_file_t where
  close_slave : Bool
  fname : Option String
  fd : Nat
deriving DecidableEq

/-- snd_pcm_file_open (allocation failures aside): with a file name the
wrapper opens that file itself, obtaining descriptor `newFd`; otherwise it
adopts the caller-supplied descriptor `fd`.  `close_slave` records whether
the slave is owned by the wrapper. -/
def snd_pcm_file_open (fname : Option String) (fd newFd : Nat)
    (close_slave : Bool) : snd_pcm_file_t :=
  match fname with
  | some s => { close_slave := close_slave, fname := some s, fd := newFd }
  | none => { close_slave := close_slave, fname := none, fd := fd }

/-- Observable outcome of snd_pcm_file_close: the returned status, the
number of snd_pcm_close calls on the slave, the error that a slave close
produced (computed into a local and then dropped by the return), and
whether the descriptor, the name string and the wrapper struct were
released. -/
structure PcmCloseOutcome where
  ret : Int
  slaveCloses : Nat
  slaveCloseErr : Int
  fdClosed : Bool
  fnameFreed : Bool
  wrapperFreed : Bool
deriving DecidableEq

/-- snd_pcm_file_close: closes the slave only when close_slave is set
(`slaveCloseRes` is the snd_pcm_close result), frees the name and closes
the descriptor only when a name is present, frees the wrapper, and returns
0 unconditionally. -/
def snd_pcm_file_close (file : snd_pcm_file_t) (slaveCloseRes : Int) :
    PcmCloseOutcome :=
  { ret := 0
    slaveCloses := if file.close_slave then 1 else 0
    slaveCloseErr := if file.close_slave then slaveCloseRes else 0
    fdClosed := file.fname.isSome
    fnameFreed := file.fname.isSome
    wrapperFreed := true }

/-- snd_pcm_frames_to_bytes with `bpf` bytes per frame. -/
def snd_pcm_frames_to_bytes (bpf f : Nat) : Nat := f * bpf

/-- snd_pcm_file_write_areas: copies `frames` frames out of the areas into a
staging buffer and writes them to the descriptor in one write call; the
value is the byte count of that write. -/
def snd_pcm_file_write_areas (bpf frames : Nat) : Nat :=
  snd_pcm_frames_to_bytes bpf frames

/-- Which operation of the slave PCM a wrapper transfer invokes. -/
inductive SlaveOp
  | writei
  | writen
  | readi
  | readn
deriving DecidableEq

/-- The results the slave PCM would return for each transfer operation. -/
structure Slave where
  writeiRes : Int
  writenRes : Int
  readiRes : Int
  readnRes : Int
deriving DecidableEq

/-- Observable outcome of one wrapper frame transfer: the returned count,
the bytes written to the mirror descriptor, and which slave operation was
invoked. -/
structure XferOutcome where
  ret : Int
  fdBytes : Nat
  slaveOp : SlaveOp
deriving DecidableEq

/-- snd_pcm_file_writei: delegates to the slave writei and, when the result
n is positive, writes n frames worth of bytes to the descriptor. -/
def snd_pcm_file_writei (bpf : Nat) (slave : Slave) : XferOutcome :=
  { ret := slave.writeiRes
    fdBytes := if 0 < slave.writeiRes then
        snd_pcm_frames_to_bytes bpf slave.writeiRes.toNat
      else 0
    slaveOp := SlaveOp.writei }

/-- snd_pcm_file_writen: delegates to the slave writen and mirrors the n
transferred frames through snd_pcm_file_write_areas. -/
def snd_pcm_file_writen (bpf : Nat) (slave : Slave) : XferOutcome :=
  { ret := slave.writenRes
    fdBytes := if 0 < slave.writenRes then
        snd_pcm_file_write_areas bpf slave.writenRes.toNat
      else 0
    slaveOp := SlaveOp.writen }

/-- snd_pcm_file_readi: delegates to the slave readi and, when the result n
is positive, writes n frames worth of bytes to the descriptor. -/
def snd_pcm_file_readi (bpf : Nat) (slave : Slave) : XferOutcome :=
  { ret := slave.readiRes
    fdBytes := if 0 < slave.readiRes then
        snd_pcm_frames_to_bytes bpf slave.readiRes.toNat
      else 0
    slaveOp := SlaveOp.readi }

/-- snd_pcm_file_readn as written in the source: it calls snd_pcm_writen on
the slave (not snd_pcm_readn) and mirrors that result. -/
def snd_pcm_file_readn (bpf : Nat) (slave : Slave) : XferOutcome :=
  { ret := slave.writenRes
    fdBytes := if 0 < slave.writenRes then
        snd_pcm_file_write_areas bpf slave.writenRes.toNat
      else 0
    slaveOp := SlaveOp.writen }

/-- The copy loop of snd_pcm_file_mmap_forward, yielding the list of frame
counts passed to snd_pcm_file_write_areas (one entry per write call).  The
loop runs while xfer < n; each chunk is size - xfer clamped to the frames
remaining before the ring end, after which the offset wraps to 0 at the
boundary.  The structural fuel bounds the iteration count; every productive
iteration writes at least one frame, so fuel n is enough. -/
def snd_pcm_file_mmap_loop (B size n : Nat) : Nat → Nat → Nat → List Nat
  | 0, _, _ => []
  | fuel + 1, ofs, xfer =>
    if xfer < n then
      let frames0 := size - xfer
      let cont := B - ofs
      let frames := if cont < frames0 then cont else frames0
      let ofs1 := ofs + frames
      frames :: snd_pcm_file_mmap_loop B size n fuel
        (if ofs1 = B then 0 else ofs1) (xfer + frames)
    else []

/-- snd_pcm_file_mmap_forward: ofs is appl_ptr modulo the buffer size B;
`slaveN` is the snd_pcm_mmap_forward result of the slave, returned
unchanged; a positive result runs the mirror copy loop. -/
def snd_pcm_file_mmap_forward (B appl_ptr size : Nat) (slaveN : Int) :
    Int × List Nat :=
  let ofs := appl_ptr % B
  if slaveN ≤ 0 then (slaveN, [])
  else (slaveN, snd_pcm_file_mmap_loop B size slaveN.toNat slaveN.toNat ofs 0)

/-- Total bytes the mirror descriptor receives from a list of write calls
of the given frame counts. -/
def mmap_fd_bytes (bpf : Nat) (writes : List Nat) : Nat :=
  (writes.map (snd_pcm_file_write_areas bpf)).sum

/-- lseek with SEEK_CUR on a regular file at position `pos`: fails with -1
when the resulting offset would be negative, otherwise returns the new
offset. -/
def lseek_cur (pos : Nat) (delta : Int) : Int :=
  if (pos : Int) + delta < 0 then -1 else (pos : Int) + delta

/-- Observable outcome of snd_pcm_file_rewind: the returned value and the
mirror descriptor position afterwards. -/
structure RewindOutcome where
  ret : Int
  pos : Nat
deriving DecidableEq

/-- snd_pcm_file_rewind: lets the slave rewind (`slaveF` is the
snd_pcm_rewind result); a positive count seeks the descriptor backward by
the corresponding byte count, propagating an lseek failure, and otherwise
the slave result is returned with the position untouched. -/
def snd_pcm_file_rewind (bpf pos : Nat) (slaveF : Int) : RewindOutcome :=
  if 0 < slaveF then
    let res := lseek_cur pos (-(slaveF * (bpf : Int)))
    if res < 0 then { ret := res, pos := pos }
    else { ret := slaveF, pos := res.toNat }
  else { ret := slaveF, pos := pos }

end Alsa

namespace Alsa

/-! ## Theorems -/

/-- C7: a snd_ump_open call requesting neither input nor output returns
-EINVAL and opens, allocates, closes and frees nothing. -/
theorem snd_ump_open_neither_direction (env : OpenEnv) :
    snd_ump_open false false env =
      { ret := -EINVAL
        inputp := none
        outputp := none
        inputAllocated := false
        outputAllocated := false
        inputRawmidiAcquired := false
        outputRawmidiAcquired := false
        inputRawmidiCloses := 0
        outputRawmidiCloses := 0
        inputFrees := 0
        outputFrees := 0 } := rfl

/-- C10: snd_pcm_file_close returns 0 for every wrapper state and every
slave close result; a slave close error is recorded into a local variable
and discarded by the unconditional return of 0. -/
theorem snd_pcm_file_close_returns_zero (file : snd_pcm_file_t)
    (slaveCloseRes : Int) :
    (snd_pcm_file_close file slaveCloseRes).ret = 0 := rfl

/-- C9 counterexample: closing a wrapper constructed from a caller-supplied
descriptor (no file name stored) does not close the mirror descriptor. -/
theorem snd_pcm_file_close_fd_counterexample :
    (snd_pcm_file_close (snd_pcm_file_open none 3 7 true) 0).fdClosed = false := rfl

/-- C9 amended: closing a PCM file wrapper closes the mirror descriptor iff
the wrapper was constructed from a file path (so it opened the descriptor
itself), and closes the slave iff close_slave is set; this holds in both
construction modes. -/
theorem snd_pcm_file_close_resources (fname : Option String) (fd newFd : Nat)
    (cs : Bool) (slaveCloseRes : Int) :
    (snd_pcm_file_close (snd_pcm_file_open fname fd newFd cs) slaveCloseRes).fdClosed
        = fname.isSome ∧
    (snd_pcm_file_close (snd_pcm_file_open fname fd newFd cs) slaveCloseRes).slaveCloses
        = (if cs then 1 else 0) ∧
    (snd_pcm_file_close (snd_pcm_file_open fname fd newFd cs) slaveCloseRes).wrapperFreed
        = true := by
  cases fname <;> exact ⟨rfl, rfl, rfl⟩

/-- C2: an input-marked handle rejects snd_ump_write with -EINVAL without
invoking the wrapped write; a non-input handle rejects snd_ump_read and
snd_ump_tread with -EINVAL without invoking the wrapped read; in all other
cases each operation returns exactly the wrapped rawmidi result. -/
theorem snd_ump_io_direction_guards (ump : snd_ump_t) (w r t : Int) :
    (ump.is_input = true → snd_ump_write ump w = (-EINVAL, false)) ∧
    (ump.is_input = false → snd_ump_write ump w = (w, true)) ∧
    (ump.is_input = false →
      snd_ump_read ump r = (-EINVAL, false) ∧
      snd_ump_tread ump t = (-EINVAL, false)) ∧
    (ump.is_input = true →
      snd_ump_read ump r = (r, true) ∧ snd_ump_tread ump t = (t, true)) := by
  cases h : ump.is_input <;>
    simp [snd_ump_write, snd_ump_read, snd_ump_tread, h]

/-- Witness for the direction guards, at concrete handles. -/
theorem snd_ump_io_direction_guards_witness :
    snd_ump_write { is_input := true, flags := 8 } 5 = (-EINVAL, false) ∧
    snd_ump_write { is_input := false, flags := 8 } 5 = (5, true) ∧
    snd_ump_read { is_input := false, flags := 8 } 7 = (-EINVAL, false) ∧
    snd_ump_read { is_input := true, flags := 8 } 7 = (7, true) :=
  ⟨(snd_ump_io_direction_guards { is_input := true, flags := 8 } 5 7 9).1 rfl,
   (snd_ump_io_direction_guards { is_input := false, flags := 8 } 5 7 9).2.1 rfl,
   ((snd_ump_io_direction_guards { is_input := false, flags := 8 } 5 7 9).2.2.1 rfl).1,
   ((snd_ump_io_direction_guards { is_input := true, flags := 8 } 5 7 9).2.2.2 rfl).1⟩

/-- C6: at a concrete slave whose writen result is 7 and readn result is 3,
snd_pcm_file_readn returns 7 and invokes the slave writen operation rather
than the slave readn operation of its own kind and direction. -/
theorem snd_pcm_file_readn_invokes_writen :
    (snd_pcm_file_readn 2 { writeiRes := 0, writenRes := 7, readiRes := 0, readnRes := 3 }).ret = 7 ∧
    (snd_pcm_file_readn 2 { writeiRes := 0, writenRes := 7, readiRes := 0, readnRes := 3 }).slaveOp = SlaveOp.writen ∧
    SlaveOp.writen ≠ SlaveOp.readn ∧
    (snd_pcm_file_readn 2 { writeiRes := 0, writenRes := 7, readiRes := 0, readnRes := 3 }).ret ≠
      Slave.readnRes { writeiRes := 0, writenRes := 7, readiRes := 0, readnRes := 3 } := by
  exact ⟨rfl, rfl, by decide, by decide⟩

/-- C1 failing input, memory-mapped path: with an 8-frame ring, appl_ptr 0,
requested size 4 and the slave forwarding only 2 frames, at 1 byte per
frame the wrapper reports 2 frames transferred but mirrors 4 bytes to the
descriptor, while 2 frames are 2 bytes: the cumulative-bytes equality
fails when the slave transfers fewer frames than the requested size. -/
theorem snd_pcm_file_mmap_forward_size_bug :
    (snd_pcm_file_mmap_forward 8 0 4 2).1 = 2 ∧
    mmap_fd_bytes 1 (snd_pcm_file_mmap_forward 8 0 4 2).2 = 4 ∧
    snd_pcm_frames_to_bytes 1 (Int.toNat 2) = 2 ∧
    mmap_fd_bytes 1 (snd_pcm_file_mmap_forward 8 0 4 2).2 ≠
      snd_pcm_frames_to_bytes 1 (Int.toNat 2) := by
  refine ⟨by decide, by decide, by decide, by decide⟩

/-- C5: when the slave rewinds K > 0 frames and the mirror position covers
K times bpf bytes, the descriptor position moves back by exactly K times
bpf and the wrapper returns K; when the slave rewinds zero or returns an
error the position is unchanged. -/
theorem snd_pcm_file_rewind_spec (bpf pos : Nat) (f : Int) :
    (0 < f → f.toNat * bpf ≤ pos →
      snd_pcm_file_rewind bpf pos f = { ret := f, pos := pos - f.toNat * bpf }) ∧
    (f ≤ 0 → snd_pcm_file_rewind bpf pos f = { ret := f, pos := pos }) := by
  constructor
  · intro hf hle
    have hc : f * (bpf : Int) = ((f.toNat * bpf : Nat) : Int) := by
      push_cast [Int.toNat_of_nonneg hf.le]
      ring
    have h1 : ¬ ((pos : Int) + -(f * (bpf : Int)) < 0) := by rw [hc]; omega
    have h2 : ((pos : Int) + -(f * (bpf : Int))).toNat = pos - f.toNat * bpf := by
      rw [hc]; omega
    simp only [snd_pcm_file_rewind, lseek_cur, if_pos hf, if_neg h1, h2]
  · intro hf0
    simp only [snd_pcm_file_rewind, if_neg (by omega : ¬ (0:Int) < f)]

/-- Witness: a rewind of 3 frames at 2 bytes per frame from position 10
moves the position to 4 and returns 3; a slave error result -1 leaves the
position at 10. -/
theorem snd_pcm_file_rewind_spec_witness :
    snd_pcm_file_rewind 2 10 3 = { ret := 3, pos := 4 } ∧
    snd_pcm_file_rewind 2 10 (-1) = { ret := -1, pos := 10 } :=
  ⟨((snd_pcm_file_rewind_spec 2 10 3).1 (by decide) (by decide)).trans (by decide),
   (snd_pcm_file_rewind_spec 2 10 (-1)).2 (by decide)⟩

end Alsa

namespace Alsa

/-- A direction step of snd_ump_open (get_rawmidi_flags wrapped in map some,
skipped when the direction is not wanted) only fails with a negative code
when the underlying info call fails with a negative code. -/
theorem step_error_neg (want : Bool) (u : snd_ump_t) (res : Except Int Nat)
    (e : Int) (hres : ∀ e2, res = Except.error e2 → e2 < 0)
    (h : (if want then (get_rawmidi_flags u res).map some
          else Except.ok none) = Except.error e) : e < 0 := by
  cases want with
  | false => simp at h
  | true =>
    cases hres2 : res with
    | error e2 =>
      have he2 := hres e2 hres2
      subst hres2
      simp [get_rawmidi_flags, Except.map] at h
      omega
    | ok fl =>
      subst hres2
      by_cases hbit : fl &&& SNDRV_RAWMIDI_INFO_UMP = 0 <;>
        simp [get_rawmidi_flags, Except.map, hbit, EINVAL] at h <;>
        omega

/-- Every snd_ump_open outcome is either a failure with negative status
whose unwind bookkeeping is exact, or the success outcome, which closes
and frees nothing. -/
theorem snd_ump_open_shape (wi wo : Bool) (env : OpenEnv)
    (hwf : OpenEnv.Wf env) :
    ((snd_ump_open wi wo env).ret < 0 ∧
      UnwoundExactlyOnce (snd_ump_open wi wo env)) ∨
    ((snd_ump_open wi wo env).ret = 0 ∧
      (snd_ump_open wi wo env).inputRawmidiCloses = 0 ∧
      (snd_ump_open wi wo env).outputRawmidiCloses = 0 ∧
      (snd_ump_open wi wo env).inputFrees = 0 ∧
      (snd_ump_open wi wo env).outputFrees = 0) := by
  obtain ⟨h1, h2, h3⟩ := hwf
  unfold snd_ump_open
  split
  · left
    exact ⟨by norm_num [EINVAL], rfl, rfl, rfl, rfl⟩
  · split
    · left
      exact ⟨by norm_num [snd_ump_open_error, ENOMEM], rfl, rfl, rfl, rfl⟩
    · split
      · left
        exact ⟨by norm_num [snd_ump_open_error, ENOMEM], rfl, rfl, rfl, rfl⟩
      · split
        next e heq =>
          left
          exact ⟨h1 e heq, rfl, rfl, rfl, rfl⟩
        next u =>
          split
          next e heq =>
            left
            exact ⟨step_error_neg wi _ env.infoInputRes e h2 heq,
              rfl, rfl, rfl, rfl⟩
          next inp heq1 =>
            split
            next e heq2 =>
              left
              exact ⟨step_error_neg wo _ env.infoOutputRes e h3 heq2,
                rfl, rfl, rfl, rfl⟩
            next outp heq2 =>
              right
              exact ⟨rfl, rfl, rfl, rfl, rfl⟩

/-- C3: whenever snd_ump_open returns a negative code, every rawmidi handle
it acquired is closed exactly once and every wrapper allocation is freed
exactly once; on success nothing is closed or freed; and snd_ump_close
always releases the wrapped rawmidi handle exactly once. -/
theorem snd_ump_open_close_balance (wi wo : Bool) (env : OpenEnv)
    (hwf : OpenEnv.Wf env) :
    ((snd_ump_open wi wo env).ret < 0 →
      UnwoundExactlyOnce (snd_ump_open wi wo env)) ∧
    ((snd_ump_open wi wo env).ret = 0 →
      (snd_ump_open wi wo env).inputRawmidiCloses = 0 ∧
      (snd_ump_open wi wo env).outputRawmidiCloses = 0 ∧
      (snd_ump_open wi wo env).inputFrees = 0 ∧
      (snd_ump_open wi wo env).outputFrees = 0) ∧
    (∀ res : Int, (snd_ump_close res).rawmidiCloses = 1 ∧
      (snd_ump_close res).frees = 1) := by
  refine ⟨?_, ?_, fun res => ⟨rfl, rfl⟩⟩
  · intro hneg
    rcases snd_ump_open_shape wi wo env hwf with h | h
    · exact h.2
    · rw [h.1] at hneg
      exact absurd hneg (by omega)
  · intro h0
    rcases snd_ump_open_shape wi wo env hwf with h | h
    · rw [h0] at h
      exact absurd h.1 (by omega)
    · exact h.2

/-- Witness: an open of both directions in which the input info query fails
with -5 unwinds by closing both acquired rawmidi handles and freeing both
wrappers exactly once; snd_ump_close closes exactly once. -/
theorem snd_ump_open_close_balance_witness :
    (snd_ump_open true true
        ⟨true, true, Except.ok (), Except.error (-5), Except.ok 9⟩).ret < 0 ∧
    UnwoundExactlyOnce (snd_ump_open true true
        ⟨true, true, Except.ok (), Except.error (-5), Except.ok 9⟩) ∧
    (snd_ump_close (-3)).rawmidiCloses = 1 := by
  have hwf : OpenEnv.Wf ⟨true, true, Except.ok (), Except.error (-5), Except.ok 9⟩ :=
    ⟨fun e h => by simp at h,
     fun e h => by injection h with h2; omega,
     fun e h => by simp at h⟩
  have h := snd_ump_open_close_balance true true
    ⟨true, true, Except.ok (), Except.error (-5), Except.ok 9⟩ hwf
  exact ⟨by decide, h.1 (by decide), (h.2.2 (-3)).1⟩

/-- C8: when both allocations and the shared rawmidi open succeed, a device
whose info flags lack the UMP bit makes snd_ump_open fail with -EINVAL and
hand back no handle — whether the UMP-less device is the input one (any
requested output), the output one of an output-only open, or the output
one of a dual open; and whenever snd_ump_open succeeds, each returned
handle caches exactly the flags its driver reported, on the input side and
on the output side (dual and output-only opens). -/
theorem snd_ump_open_requires_ump_flag (wo : Bool) (env : OpenEnv) (fl : Nat)
    (hwf : OpenEnv.Wf env)
    (hci : env.callocInputOk = true) (hco : env.callocOutputOk = true)
    (hro : env.rawmidiOpenRes = Except.ok ())
    (hfl : env.infoInputRes = Except.ok fl) :
    (fl &&& SNDRV_RAWMIDI_INFO_UMP = 0 →
      (snd_ump_open true wo env).ret = -EINVAL ∧
      (snd_ump_open true wo env).inputp = none ∧
      (snd_ump_open true wo env).outputp = none) ∧
    (∀ fl2, env.infoOutputRes = Except.ok fl2 →
      fl2 &&& SNDRV_RAWMIDI_INFO_UMP = 0 →
      ((snd_ump_open false true env).ret = -EINVAL ∧
       (snd_ump_open false true env).inputp = none ∧
       (snd_ump_open false true env).outputp = none) ∧
      ((snd_ump_open true true env).ret = -EINVAL ∧
       (snd_ump_open true true env).inputp = none ∧
       (snd_ump_open true true env).outputp = none)) ∧
    (∀ fl2, env.infoOutputRes = Except.ok fl2 →
      ((snd_ump_open true true env).ret = 0 →
        (snd_ump_open true true env).outputp =
          some { is_input := false, flags := fl2 }) ∧
      ((snd_ump_open false true env).ret = 0 →
        (snd_ump_open false true env).outputp =
          some { is_input := false, flags := fl2 })) ∧
    ((snd_ump_open true wo env).ret = 0 →
      (snd_ump_open true wo env).inputp =
        some { is_input := true, flags := fl }) := by
  obtain ⟨hw1, hw2, hw3⟩ := hwf
  refine ⟨?_, ?_, ?_, ?_⟩
  · intro hbit
    simp [snd_ump_open, get_rawmidi_flags, Except.map, hci, hco, hro, hfl,
      hbit, snd_ump_open_error]
  · intro fl2 hio hbit2
    constructor
    · simp [snd_ump_open, get_rawmidi_flags, Except.map, hci, hco, hro, hio,
        hbit2, snd_ump_open_error]
    · by_cases hbit : fl &&& SNDRV_RAWMIDI_INFO_UMP = 0
      · simp [snd_ump_open, get_rawmidi_flags, Except.map, hci, hco, hro,
          hfl, hbit, snd_ump_open_error]
      · simp [snd_ump_open, get_rawmidi_flags, Except.map, hci, hco, hro,
          hfl, hbit, hio, hbit2, snd_ump_open_error]
  · intro fl2 hio
    constructor
    · intro h0
      by_cases hbit : fl &&& SNDRV_RAWMIDI_INFO_UMP = 0
      · exfalso
        simp [snd_ump_open, get_rawmidi_flags, Except.map, hci, hco, hro,
          hfl, hbit, snd_ump_open_error, EINVAL] at h0
      · by_cases hbit2 : fl2 &&& SNDRV_RAWMIDI_INFO_UMP = 0
        · exfalso
          simp [snd_ump_open, get_rawmidi_flags, Except.map, hci, hco, hro,
            hfl, hbit, hio, hbit2, snd_ump_open_error, EINVAL] at h0
        · simp [snd_ump_open, get_rawmidi_flags, Except.map, hci, hco, hro,
            hfl, hbit, hio, hbit2]
    · intro h0
      by_cases hbit2 : fl2 &&& SNDRV_RAWMIDI_INFO_UMP = 0
      · exfalso
        simp [snd_ump_open, get_rawmidi_flags, Except.map, hci, hco, hro,
          hio, hbit2, snd_ump_open_error, EINVAL] at h0
      · simp [snd_ump_open, get_rawmidi_flags, Except.map, hci, hco, hro,
          hio, hbit2]
  · intro h0
    by_cases hbit : fl &&& SNDRV_RAWMIDI_INFO_UMP = 0
    · exfalso
      simp [snd_ump_open, get_rawmidi_flags, Except.map, hci, hco, hro, hfl,
        hbit, snd_ump_open_error, EINVAL] at h0
    · cases wo with
      | false =>
        simp [snd_ump_open, get_rawmidi_flags, Except.map, hci, hco, hro,
          hfl, hbit]
      | true =>
        cases hio : env.infoOutputRes with
        | error e =>
          exfalso
          have he := hw3 e hio
          simp [snd_ump_open, get_rawmidi_flags, Except.map, hci, hco, hro,
            hfl, hbit, hio, snd_ump_open_error] at h0
          omega
        | ok fl2 =>
          by_cases hbit2 : fl2 &&& SNDRV_RAWMIDI_INFO_UMP = 0
          · exfalso
            simp [snd_ump_open, get_rawmidi_flags, Except.map, hci, hco, hro,
              hfl, hbit, hio, hbit2, snd_ump_open_error, EINVAL] at h0
          · simp [snd_ump_open, get_rawmidi_flags, Except.map, hci, hco, hro,
              hfl, hbit, hio, hbit2]

/-- Witness: an input device reporting flags 0 (no UMP bit) is rejected
with -EINVAL and no handle; an input device reporting flags 9 is accepted
and the input handle caches 9; a dual open whose output device reports 12
caches 12 on the output handle, as does an output-only open; a dual open
whose output device reports 0 is rejected with -EINVAL. -/
theorem snd_ump_open_requires_ump_flag_witness :
    (snd_ump_open true false
        ⟨true, true, Except.ok (), Except.ok 0, Except.ok 9⟩).ret = -EINVAL ∧
    (snd_ump_open true false
        ⟨true, true, Except.ok (), Except.ok 0, Except.ok 9⟩).inputp = none ∧
    (snd_ump_open true false
        ⟨true, true, Except.ok (), Except.ok 9, Except.ok 9⟩).inputp =
      some { is_input := true, flags := 9 } ∧
    (snd_ump_open true true
        ⟨true, true, Except.ok (), Except.ok 9, Except.ok 12⟩).outputp =
      some { is_input := false, flags := 12 } ∧
    (snd_ump_open false true
        ⟨true, true, Except.ok (), Except.ok 9, Except.ok 12⟩).outputp =
      some { is_input := false, flags := 12 } ∧
    (snd_ump_open true true
        ⟨true, true, Except.ok (), Except.ok 9, Except.ok 0⟩).ret = -EINVAL := by
  have hwfA : OpenEnv.Wf ⟨true, true, Except.ok (), Except.ok 0, Except.ok 9⟩ :=
    ⟨fun e h => by simp at h, fun e h => by simp at h, fun e h => by simp at h⟩
  have hwfB : OpenEnv.Wf ⟨true, true, Except.ok (), Except.ok 9, Except.ok 9⟩ :=
    ⟨fun e h => by simp at h, fun e h => by simp at h, fun e h => by simp at h⟩
  have hwfC : OpenEnv.Wf ⟨true, true, Except.ok (), Except.ok 9, Except.ok 12⟩ :=
    ⟨fun e h => by simp at h, fun e h => by simp at h, fun e h => by simp at h⟩
  have hwfD : OpenEnv.Wf ⟨true, true, Except.ok (), Except.ok 9, Except.ok 0⟩ :=
    ⟨fun e h => by simp at h, fun e h => by simp at h, fun e h => by simp at h⟩
  have hA := (snd_ump_open_requires_ump_flag false
    ⟨true, true, Except.ok (), Except.ok 0, Except.ok 9⟩ 0 hwfA
    rfl rfl rfl rfl).1 (by decide)
  have hB := (snd_ump_open_requires_ump_flag false
    ⟨true, true, Except.ok (), Except.ok 9, Except.ok 9⟩ 9 hwfB
    rfl rfl rfl rfl).2.2.2 (by decide)
  have hC := (snd_ump_open_requires_ump_flag false
    ⟨true, true, Except.ok (), Except.ok 9, Except.ok 12⟩ 9 hwfC
    rfl rfl rfl rfl).2.2.1 12 rfl
  have hD := (snd_ump_open_requires_ump_flag false
    ⟨true, true, Except.ok (), Except.ok 9, Except.ok 0⟩ 9 hwfD
    rfl rfl rfl rfl).2.1 0 rfl (by decide)
  exact ⟨hA.1, hA.2.1, hB, hC.1 (by decide), hC.2 (by decide), hD.2.1⟩

/-- Once the transferred count n has been reached, the mirror copy loop of
mmap_forward stops without a further write. -/
theorem snd_pcm_file_mmap_loop_done (B size n fuel ofs xfer : Nat)
    (h : n ≤ xfer) : snd_pcm_file_mmap_loop B size n fuel ofs xfer = [] := by
  cases fuel with
  | zero => rfl
  | succ k => simp [snd_pcm_file_mmap_loop, Nat.not_lt.mpr h]

/-- One productive iteration of the mirror copy loop: it writes the chunk
size - xfer clamped to the room before the ring end, advances the offset
(wrapping at the boundary) and the transferred count. -/
theorem snd_pcm_file_mmap_loop_step (B size n fuel ofs xfer : Nat)
    (h : xfer < n) :
    snd_pcm_file_mmap_loop B size n (fuel + 1) ofs xfer =
      (if B - ofs < size - xfer then B - ofs else size - xfer) ::
        snd_pcm_file_mmap_loop B size n fuel
          (if ofs + (if B - ofs < size - xfer then B - ofs else size - xfer) = B
            then 0
            else ofs + (if B - ofs < size - xfer then B - ofs else size - xfer))
          (xfer + (if B - ofs < size - xfer then B - ofs else size - xfer)) := by
  simp only [snd_pcm_file_mmap_loop, if_pos h]

/-- The mirror copy loop started at offset ofs with m pending frames
(0 < m, m no larger than the request size or the buffer) performs exactly
one write when ofs + m stays within the ring and exactly two when it
crosses the ring end. -/
theorem snd_pcm_file_mmap_loop_length (B size m ofs : Nat) (hm : 0 < m)
    (hms : m ≤ size) (hmB : m ≤ B) (hofs : ofs < B) :
    (snd_pcm_file_mmap_loop B size m m ofs 0).length =
      if ofs + m ≤ B then 1 else 2 := by
  obtain ⟨k, rfl⟩ : ∃ k, m = k + 1 := ⟨m - 1, by omega⟩
  rw [snd_pcm_file_mmap_loop_step B size (k + 1) k ofs 0 (by omega)]
  by_cases hA : ofs + (k + 1) ≤ B
  · rw [if_pos hA]
    rw [snd_pcm_file_mmap_loop_done _ _ _ _ _ _ (by split <;> omega)]
    simp
  · rw [if_neg hA]
    have hlt : B - ofs < size - 0 := by omega
    rw [if_pos hlt]
    rw [if_pos (by omega : ofs + (B - ofs) = B)]
    obtain ⟨k2, rfl⟩ : ∃ k2, k = k2 + 1 := ⟨k - 1, by omega⟩
    rw [snd_pcm_file_mmap_loop_step B size (k2 + 1 + 1) k2 0 (0 + (B - ofs))
      (by omega)]
    rw [snd_pcm_file_mmap_loop_done _ _ _ _ _ _ (by split <;> omega)]
    simp

/-- C4: a successful mmap_forward whose slave advanced n frames (with
0 < n, n no larger than the requested size or the B-frame ring) mirrors the
data in exactly one contiguous write when the start offset plus n stays
within the ring and in exactly two writes when it crosses the ring end —
at most two writes in every case. -/
theorem snd_pcm_file_mmap_forward_write_count (B appl_ptr size : Nat)
    (n : Int) (hB : 0 < B) (hn : 0 < n) (hns : n.toNat ≤ size)
    (hnB : n.toNat ≤ B) :
    (snd_pcm_file_mmap_forward B appl_ptr size n).2.length =
      if appl_ptr % B + n.toNat ≤ B then 1 else 2 := by
  have hofs : appl_ptr % B < B := Nat.mod_lt _ hB
  have hm : 0 < n.toNat := by omega
  have hns2 : ¬ n ≤ 0 := by omega
  simp only [snd_pcm_file_mmap_forward, if_neg hns2]
  exact snd_pcm_file_mmap_loop_length B size n.toNat (appl_ptr % B) hm hns hnB hofs

/-- Witness: in an 8-frame ring a 4-frame forward starting at offset 6
takes two writes, and starting at offset 0 takes one. -/
theorem snd_pcm_file_mmap_forward_write_count_witness :
    (snd_pcm_file_mmap_forward 8 6 4 4).2.length = 2 ∧
    (snd_pcm_file_mmap_forward 8 0 4 4).2.length = 1 := by
  constructor
  · have h := snd_pcm_file_mmap_forward_write_count 8 6 4 4 (by decide)
      (by decide) (by decide) (by decide)
    exact h.trans (by decide)
  · have h := snd_pcm_file_mmap_forward_write_count 8 0 4 4 (by decide)
      (by decide) (by decide) (by decide)
    exact h.trans (by decide)

end Alsa
